import Mathlib

/-!
# litecam binding layer (`src/litecam.cpp`)

A shallow embedding of the Python extension module `litecam`: the device list adapter
`getDeviceList`, the four image encode operations `saveJpeg`, `savePng`, `saveJpegInMemory`,
`savePngInMemory` with the callback `write_to_memory`, and the module initialisation
`PyInit_litecam`.

Conventions of the embedding.

* A `PyObject *` result is an `Option PyObject`; `none` is the C `NULL`.
* The interpreter's error indicator, the file system and the log of calls made into the
  encoder library are threaded explicitly through a `World`.
* C `int` values are integers in the signed 32-bit range; `int` multiplication is the
  mathematical product brought back into that range modulo `2^32`.
* The collaborators that are not part of `litecam.cpp` (the CPython API, the image writer,
  the device enumeration) are either modelled after their documented behaviour or taken as
  parameters.
-/

namespace LiteCam

/-! ## Machine integers -/

/-- An `unsigned char`. -/
abbrev Byte := Fin 256

/-- Smallest value of a C `int`. -/
def INT_MIN : Int := -2147483648

/-- Largest value of a C `int`. -/
def INT_MAX : Int := 2147483647

/-- The value is representable as a C `int`. -/
def fitsInt (x : Int) : Prop := INT_MIN ≤ x ∧ x ≤ INT_MAX

instance (x : Int) : Decidable (fitsInt x) := by
  unfold fitsInt; infer_instance

/-- Bring a mathematical integer into the signed 32-bit range, modulo `2^32`. -/
def wrapInt32 (x : Int) : Int := (x + 2147483648) % 4294967296 - 2147483648

/-- The C expression `a * b` on two `int` operands. -/
def cMulInt (a b : Int) : Int := wrapInt32 (a * b)

/-- The C expression `(Py_ssize_t)(width * height * 3)` used by every size check. -/
def expectedSize (width height : Int) : Int := cMulInt (cMulInt width height) 3

/-! ## Python objects and the error indicator -/

/-- The Python objects that can reach the binding. `list` is a list of `str` objects, the only
kind of list this module builds; `other` stands for every object of another type. -/
inductive PyObject where
  | none
  | bool (b : Bool)
  | int (v : Int)
  | str (s : String)
  | bytes (b : List Byte)
  | bytearray (b : List Byte)
  | list (items : List String)
  | other (tag : Nat)
  deriving DecidableEq, Repr

/-- The exception types that occur in this module or in the interpreter calling it. -/
inductive PyExc where
  | TypeError
  | ValueError
  | RuntimeError
  | UnicodeDecodeError
  | MemoryError
  | SystemError
  deriving DecidableEq, Repr

/-- The content of the error indicator: an exception type and its message. -/
structure PyErr where
  exc : PyExc
  msg : String
  deriving DecidableEq, Repr

/-! ## Argument parsing (CPython `PyArg_ParseTuple`) -/

/-- A C value stored by `PyArg_ParseTuple` through one of its output pointers. -/
inductive CArg where
  | cstr (s : String)
  | cint (v : Int)
  | obj (o : PyObject)
  deriving DecidableEq, Repr

/-- One format unit of `PyArg_ParseTuple`.
`s` takes a `str` without an embedded null character, `i` takes an integer object that fits a
C `int` (`bool` is a subclass of `int`; objects of further types that convert through
`__index__` are not modelled), `O` takes any object without conversion or type check. -/
def convertItem (unit : Char) (arg : PyObject) : Option CArg :=
  if unit = 's' then
    match arg with
    | .str s => if Char.ofNat 0 ∈ s.data then Option.none else some (.cstr s)
    | _ => Option.none
  else if unit = 'i' then
    match arg with
    | .int v => if fitsInt v then some (.cint v) else Option.none
    | .bool b => some (.cint (if b then 1 else 0))
    | _ => Option.none
  else if unit = 'O' then
    some (.obj arg)
  else
    Option.none

/-- Walk the format units and the argument tuple together; a difference in length is an
arity error. -/
def parseItems : List Char → List PyObject → Option (List CArg)
  | [], [] => some []
  | unit :: units, arg :: args =>
    match convertItem unit arg with
    | some c =>
      match parseItems units args with
      | some cs => some (c :: cs)
      | Option.none => Option.none
    | Option.none => Option.none
  | _, _ => Option.none

/-- The call `PyArg_ParseTuple(args, format, ...)`: `none` is the zero (failure) return, `some`
carries the values stored through the output pointers. -/
def PyArg_ParseTuple (args : List PyObject) (format : String) : Option (List CArg) :=
  parseItems format.data args

/-! ## Byte array access (CPython `PyByteArray_AsString`, `PyByteArray_Size`) -/

/-- What the byte array accessors yield on an object that is not a `bytearray`. The accessors
do not check the type in a release build of the interpreter and read the object through the
`bytearray` layout, so the outcome depends on the interpreter and is a parameter. -/
structure Runtime where
  strayData : PyObject → List Byte
  straySize : PyObject → Int

/-- The bytes behind the pointer returned by `PyByteArray_AsString`. -/
def PyByteArray_AsString (rt : Runtime) : PyObject → List Byte
  | .bytearray b => b
  | o => rt.strayData o

/-- The value returned by `PyByteArray_Size`. -/
def PyByteArray_Size (rt : Runtime) : PyObject → Int
  | .bytearray b => (b.length : Int)
  | o => rt.straySize o

/-! ## The image writer library (`stb_image_write.h`) -/

/-- The four entry points of the image writer used by the module. -/
inductive StbiEntry where
  | stbi_write_jpg
  | stbi_write_png
  | stbi_write_jpg_to_func
  | stbi_write_png_to_func
  deriving DecidableEq, Repr

/-- One call into the image writer, with the arguments it received. `last` is the final
argument: the quality for JPEG, the row stride in bytes for PNG. -/
structure EncoderCall where
  entry : StbiEntry
  filename : Option String
  width : Int
  height : Int
  comp : Int
  data : List Byte
  last : Int
  deriving DecidableEq, Repr

/-- One invocation of the output callback by the encoder: the memory behind the `data`
pointer and the `size` argument. -/
structure Chunk where
  data : List Byte
  size : Int
  deriving DecidableEq, Repr

/-- The observable behaviour of a callback-driven encoder run: the chunks handed to the
callback, in emission order, and the returned status. -/
structure EncodeRun where
  chunks : List Chunk
  status : Int
  deriving DecidableEq, Repr

/-- The content of the file system: path and bytes, most recently written first. -/
abbrev Files := List (String × List Byte)

/-- The image writer as a parameter of the module. The file variants take the file system and
return the status with the new file system; the callback variants return their run. -/
structure Stbi where
  write_jpg : String → Int → Int → Int → List Byte → Int → Files → Int × Files
  write_png : String → Int → Int → Int → List Byte → Int → Files → Int × Files
  jpg_to_func : Int → Int → Int → List Byte → Int → EncodeRun
  png_to_func : Int → Int → Int → List Byte → Int → EncodeRun

/-- The state the encode operations act on. -/
structure World where
  err : Option PyErr
  files : Files
  calls : List EncoderCall

/-- The call `PyErr_SetString(exc, msg)`: replaces the error indicator. -/
def PyErr_SetString (w : World) (exc : PyExc) (msg : String) : World :=
  { w with err := some ⟨exc, msg⟩ }

/-- The call `stbi_write_jpg(filename, w, h, comp, data, quality)`. -/
def stbi_write_jpg (lib : Stbi) (filename : String) (w h comp : Int) (data : List Byte)
    (quality : Int) (world : World) : Int × World :=
  let r := lib.write_jpg filename w h comp data quality world.files
  (r.1, { world with
    files := r.2,
    calls := world.calls ++ [⟨.stbi_write_jpg, some filename, w, h, comp, data, quality⟩] })

/-- The call `stbi_write_png(filename, w, h, comp, data, stride_in_bytes)`. -/
def stbi_write_png (lib : Stbi) (filename : String) (w h comp : Int) (data : List Byte)
    (stride : Int) (world : World) : Int × World :=
  let r := lib.write_png filename w h comp data stride world.files
  (r.1, { world with
    files := r.2,
    calls := world.calls ++ [⟨.stbi_write_png, some filename, w, h, comp, data, stride⟩] })

/-- The call `stbi_write_jpg_to_func(func, context, w, h, comp, data, quality)`: the encoder
invokes `func` on the context once per emitted chunk, in order. Returns the status and the
context after the last invocation. -/
def stbi_write_jpg_to_func {C : Type} (lib : Stbi) (func : C → Chunk → C) (context : C)
    (w h comp : Int) (data : List Byte) (quality : Int) (world : World) : (Int × C) × World :=
  let run := lib.jpg_to_func w h comp data quality
  ((run.status, run.chunks.foldl func context), { world with
    calls := world.calls ++ [⟨.stbi_write_jpg_to_func, Option.none, w, h, comp, data, quality⟩] })

/-- The call `stbi_write_png_to_func(func, context, w, h, comp, data, stride_in_bytes)`. -/
def stbi_write_png_to_func {C : Type} (lib : Stbi) (func : C → Chunk → C) (context : C)
    (w h comp : Int) (data : List Byte) (stride : Int) (world : World) : (Int × C) × World :=
  let run := lib.png_to_func w h comp data stride
  ((run.status, run.chunks.foldl func context), { world with
    calls := world.calls ++ [⟨.stbi_write_png_to_func, Option.none, w, h, comp, data, stride⟩] })

/-! ## The encode operations -/

/-- The callback `write_to_memory(context, data, size)`:
`buffer->insert(buffer->end(), cdata, cdata + size)`. -/
def write_to_memory (buffer : List Byte) (chunk : Chunk) : List Byte :=
  buffer ++ chunk.data.take chunk.size.toNat

/-- The function `saveJpeg(obj, args)`. -/
def saveJpeg (rt : Runtime) (lib : Stbi) (args : List PyObject) (world : World) :
    Option PyObject × World :=
  match PyArg_ParseTuple args "siiO" with
  | some [.cstr filename, .cint width, .cint height, .obj byteArray] =>
    let data := PyByteArray_AsString rt byteArray
    let size := PyByteArray_Size rt byteArray
    if size ≠ expectedSize width height then
      (Option.none, PyErr_SetString world .ValueError
        "Invalid byte array size for the given width and height.")
    else
      let r := stbi_write_jpg lib filename width height 3 data 90 world
      if r.1 ≠ 0 then
        (some .none, r.2)
      else
        (Option.none, PyErr_SetString r.2 .RuntimeError "Failed to save JPEG file.")
  | _ =>
    (Option.none, PyErr_SetString world .TypeError
      "Expected arguments: str, int, int, PyByteArray")

/-- The function `saveJpegInMemory(obj, args)`. -/
def saveJpegInMemory (rt : Runtime) (lib : Stbi) (args : List PyObject) (world : World) :
    Option PyObject × World :=
  match PyArg_ParseTuple args "iiO" with
  | some [.cint width, .cint height, .obj byteArray] =>
    let data := PyByteArray_AsString rt byteArray
    let size := PyByteArray_Size rt byteArray
    if size ≠ expectedSize width height then
      (Option.none, PyErr_SetString world .ValueError
        "Invalid byte array size for the given width and height.")
    else
      let r := stbi_write_jpg_to_func lib write_to_memory [] width height 3 data 90 world
      if r.1.1 ≠ 0 then
        (some (.bytes r.1.2), r.2)
      else
        (Option.none, PyErr_SetString r.2 .RuntimeError "Failed to save JPEG to memory.")
  | _ =>
    (Option.none, PyErr_SetString world .TypeError "Expected arguments: int, int, PyByteArray")

/-- The function `savePngInMemory(obj, args)`. -/
def savePngInMemory (rt : Runtime) (lib : Stbi) (args : List PyObject) (world : World) :
    Option PyObject × World :=
  match PyArg_ParseTuple args "iiO" with
  | some [.cint width, .cint height, .obj byteArray] =>
    let data := PyByteArray_AsString rt byteArray
    let size := PyByteArray_Size rt byteArray
    if size ≠ expectedSize width height then
      (Option.none, PyErr_SetString world .ValueError
        "Invalid byte array size for the given width and height.")
    else
      let r := stbi_write_png_to_func lib write_to_memory [] width height 3 data
        (cMulInt width 3) world
      if r.1.1 ≠ 0 then
        (some (.bytes r.1.2), r.2)
      else
        (Option.none, PyErr_SetString r.2 .RuntimeError "Failed to save PNG to memory.")
  | _ =>
    (Option.none, PyErr_SetString world .TypeError "Expected arguments: int, int, PyByteArray")

/-- The function `savePng(obj, args)`. -/
def savePng (rt : Runtime) (lib : Stbi) (args : List PyObject) (world : World) :
    Option PyObject × World :=
  match PyArg_ParseTuple args "siiO" with
  | some [.cstr filename, .cint width, .cint height, .obj byteArray] =>
    let data := PyByteArray_AsString rt byteArray
    let size := PyByteArray_Size rt byteArray
    if size ≠ expectedSize width height then
      (Option.none, PyErr_SetString world .ValueError
        "Invalid byte array size for the given width and height.")
    else
      let r := stbi_write_png lib filename width height 3 data (cMulInt width 3) world
      if r.1 ≠ 0 then
        (some .none, r.2)
      else
        (Option.none, PyErr_SetString r.2 .RuntimeError "Failed to save PNG file.")
  | _ =>
    (Option.none, PyErr_SetString world .TypeError
      "Expected arguments: str, int, int, PyByteArray")

/-- The operation returned `NULL` with the error indicator holding an exception of type
`exc`. -/
def failsWith (r : Option PyObject × World) (exc : PyExc) : Prop :=
  r.1 = Option.none ∧ ∃ msg, r.2.err = some ⟨exc, msg⟩

/-- The operation did not return through the size-mismatch branch; for a call whose arguments
parse this says that the size check let the call through. -/
def sizeCheckPasses (r : Option PyObject × World) : Prop :=
  ¬ failsWith r .ValueError

/-! ## The image writer as the specification describes it -/

/-- Modelled from the spec: the image writer `stb_image_write.h` is not among the sources. The
specification describes it as one compression routine per kind "producing JPEG or PNG bytes from
a pixel buffer", wrapped as a "pixel-buffer-to-file/memory encoder". A `Codec` is that routine
for each kind, as the run it performs (emitted chunks and status), together with the paths at
which a file can be opened for writing. -/
structure Codec where
  jpeg : Int → Int → Int → List Byte → Int → EncodeRun
  png : Int → Int → Int → List Byte → Int → EncodeRun
  canOpen : String → Bool

/-- The bytes of a run: the first `size` bytes of every chunk, in emission order. -/
def EncodeRun.output (run : EncodeRun) : List Byte :=
  (run.chunks.map (fun c => c.data.take c.size.toNat)).flatten

/-- Write (or overwrite) the file at `path`. -/
def writeFile (files : Files) (path : String) (content : List Byte) : Files :=
  (path, content) :: files.filter (fun f => f.1 ≠ path)

/-- Read the file at `path` back. -/
def readFile (files : Files) (path : String) : Option (List Byte) :=
  (files.find? (fun f => f.1 = path)).map (fun f => f.2)

/-- Modelled from the spec: the file variant of an encoder "writes/overwrites the file at
`path`" with the bytes the compression routine produces and reports the routine's status; when
the file cannot be opened it reports failure and writes nothing. -/
def Codec.toFile (codec : Codec) (routine : Int → Int → Int → List Byte → Int → EncodeRun)
    (filename : String) (w h comp : Int) (data : List Byte) (last : Int) (files : Files) :
    Int × Files :=
  if codec.canOpen filename then
    let run := routine w h comp data last
    (run.status, writeFile files filename run.output)
  else
    (0, files)

/-- Modelled from the spec: the image writer built from a `Codec`; the memory variant hands the
chunks of the same compression routine to the callback. -/
def Codec.toStbi (codec : Codec) : Stbi where
  write_jpg := codec.toFile codec.jpeg
  write_png := codec.toFile codec.png
  jpg_to_func := codec.jpeg
  png_to_func := codec.png

/-! ## Device enumeration -/

/-- A device descriptor returned by `ListCaptureDevices`; `Name` is the platform-native name
(`wchar_t[]` on Windows, `char[]` elsewhere). -/
structure CaptureDeviceInfo (Name : Type) where
  friendlyName : Name

/-- The function `getDeviceList(obj, args)`. `toUnicode` is the platform's text conversion
(`PyUnicode_FromWideChar` or `PyUnicode_FromString`), which returns `NULL` with an exception set
on failure; `devices` is the value of `ListCaptureDevices()`; `err` is the error indicator.
Returns the result pointer and the error indicator on return. -/
def getDeviceList {Name : Type} (toUnicode : Name → Except PyErr String)
    (devices : List (CaptureDeviceInfo Name)) (err : Option PyErr) :
    Option PyObject × Option PyErr :=
  let r := devices.foldl
    (fun (acc : List String × Option PyErr) device =>
      match toUnicode device.friendlyName with
      | .ok pyName => (acc.1 ++ [pyName], acc.2)
      | .error e => (acc.1, some e))
    ([], err)
  (some (.list r.1), r.2)

/-- State of a strict UTF-8 decoder: the characters decoded so far, the number of continuation
bytes still expected, the bits of the code point accumulated so far and the smallest code point
allowed for the current sequence length. -/
structure Utf8State where
  out : List Char
  need : Nat
  acc : Nat
  lo : Nat

/-- Consume one byte; `none` on a byte that cannot continue a well-formed sequence. -/
def utf8Step (st : Utf8State) (b : Byte) : Option Utf8State :=
  if st.need = 0 then
    if b.val < 0x80 then some ⟨st.out ++ [Char.ofNat b.val], 0, 0, 0⟩
    else if 0xC0 ≤ b.val ∧ b.val < 0xE0 then some ⟨st.out, 1, b.val - 0xC0, 0x80⟩
    else if 0xE0 ≤ b.val ∧ b.val < 0xF0 then some ⟨st.out, 2, b.val - 0xE0, 0x800⟩
    else if 0xF0 ≤ b.val ∧ b.val < 0xF8 then some ⟨st.out, 3, b.val - 0xF0, 0x10000⟩
    else Option.none
  else if 0x80 ≤ b.val ∧ b.val < 0xC0 then
    let acc := st.acc * 64 + (b.val - 0x80)
    if st.need = 1 then
      if st.lo ≤ acc ∧ acc ≤ 0x10FFFF ∧ ¬ (0xD800 ≤ acc ∧ acc ≤ 0xDFFF) then
        some ⟨st.out ++ [Char.ofNat acc], 0, 0, 0⟩
      else Option.none
    else some ⟨st.out, st.need - 1, acc, st.lo⟩
  else Option.none

/-- Run the decoder over a byte string from a given state. -/
def utf8Run : Utf8State → List Byte → Option Utf8State
  | st, [] => some st
  | st, b :: bs =>
    match utf8Step st b with
    | some st1 => utf8Run st1 bs
    | Option.none => Option.none

/-- The call `PyUnicode_FromString(u)` (CPython): decodes the null-terminated string `u` as
strict UTF-8; on malformed input returns `NULL` with `UnicodeDecodeError` set. -/
def PyUnicode_FromString (u : List Byte) : Except PyErr String :=
  match utf8Run ⟨[], 0, 0, 0⟩ (u.takeWhile (fun b => b ≠ 0)) with
  | some st =>
    if st.need = 0 then .ok (String.mk st.out)
    else .error ⟨.UnicodeDecodeError, "unexpected end of data"⟩
  | Option.none => .error ⟨.UnicodeDecodeError, "invalid byte"⟩

/-- The check the interpreter applies to the result of every call of a built-in function
(CPython `_Py_CheckFunctionResult`): a non-`NULL` result returned while an exception is set is
discarded and the call raises `SystemError`; so does a `NULL` result without an exception. -/
def Py_CheckFunctionResult (r : Option PyObject × Option PyErr) :
    Option PyObject × Option PyErr :=
  match r with
  | (some _, some _) =>
    (Option.none, some ⟨.SystemError, "returned a result with an exception set"⟩)
  | (Option.none, Option.none) =>
    (Option.none, some ⟨.SystemError, "returned NULL without setting an exception"⟩)
  | (some o, Option.none) => (some o, Option.none)
  | (Option.none, some e) => (Option.none, some e)

/-- The call `litecam.getDeviceList()` as a caller sees it: the interpreter enters
`getDeviceList` with a clear error indicator and checks what it returns. -/
def call_getDeviceList {Name : Type} (toUnicode : Name → Except PyErr String)
    (devices : List (CaptureDeviceInfo Name)) : Option PyObject × Option PyErr :=
  Py_CheckFunctionResult (getDeviceList toUnicode devices Option.none)

/-! ## Module initialisation -/

/-- The two externally defined type objects. -/
inductive PyTypeObject where
  | PyCameraType
  | PyWindowType
  deriving DecidableEq, Repr

/-- The interpreter calls of `PyInit_litecam` that can fail. -/
inductive InitStep where
  | PyModule_Create
  | PyType_Ready (t : PyTypeObject)
  | PyModule_AddObject (name : String) (t : PyTypeObject)
  deriving DecidableEq, Repr

/-- Everything `PyInit_litecam` does, in program order. -/
inductive InitEvent where
  | call (s : InitStep)
  | printf (text : String)
  | decrefType (t : PyTypeObject)
  | decrefModule
  deriving DecidableEq, Repr

/-- The state module initialisation acts on: the log of events, the reference count of the
module object (`0` while it does not exist or once it has been released) and the attributes
registered on it. -/
structure InitWorld where
  log : List InitEvent
  moduleRefs : Nat
  attrs : List (String × PyTypeObject)

/-- Which interpreter calls succeed; decided by the interpreter and by the type definitions of
`pycamera.h` and `pywindow.h`, hence a parameter. -/
structure InitApi where
  succeeds : InitStep → Bool

/-- The call `PyModule_Create(&litecam_module_def)`: `true` for a non-`NULL` module, which
then holds one reference. -/
def PyModule_Create (api : InitApi) (w : InitWorld) : Bool × InitWorld :=
  if api.succeeds .PyModule_Create then
    (true, ⟨w.log ++ [.call .PyModule_Create], 1, []⟩)
  else
    (false, ⟨w.log ++ [.call .PyModule_Create], w.moduleRefs, w.attrs⟩)

/-- The call `PyType_Ready(&type)`: `0` on success, `-1` on failure. -/
def PyType_Ready (api : InitApi) (t : PyTypeObject) (w : InitWorld) : Int × InitWorld :=
  (if api.succeeds (.PyType_Ready t) then 0 else -1,
    ⟨w.log ++ [.call (.PyType_Ready t)], w.moduleRefs, w.attrs⟩)

/-- The call `PyModule_AddObject(module, name, (PyObject *)&type)`: `0` on success, with the
attribute registered, `-1` on failure. -/
def PyModule_AddObject (api : InitApi) (name : String) (t : PyTypeObject) (w : InitWorld) :
    Int × InitWorld :=
  if api.succeeds (.PyModule_AddObject name t) then
    (0, ⟨w.log ++ [.call (.PyModule_AddObject name t)], w.moduleRefs, w.attrs ++ [(name, t)]⟩)
  else
    (-1, ⟨w.log ++ [.call (.PyModule_AddObject name t)], w.moduleRefs, w.attrs⟩)

/-- The C library call `printf(text)`. -/
def printf (text : String) (w : InitWorld) : InitWorld :=
  ⟨w.log ++ [.printf text], w.moduleRefs, w.attrs⟩

/-- The call `Py_DECREF(&type)` on one of the two type objects. -/
def Py_DECREF_type (t : PyTypeObject) (w : InitWorld) : InitWorld :=
  ⟨w.log ++ [.decrefType t], w.moduleRefs, w.attrs⟩

/-- The call `Py_DECREF(module)`: drops one reference; the module is deallocated, with its attributes,
when the count reaches zero. -/
def Py_DECREF_module (w : InitWorld) : InitWorld :=
  ⟨w.log ++ [.decrefModule], w.moduleRefs - 1, if w.moduleRefs - 1 = 0 then [] else w.attrs⟩

/-- The function `PyInit_litecam()`. The returned module is represented by the attributes
registered on it; `none` is the `NULL` return (`INITERROR`). -/
def PyInit_litecam (api : InitApi) (w : InitWorld) :
    Option (List (String × PyTypeObject)) × InitWorld :=
  let m := PyModule_Create api w
  if m.1 = false then
    (Option.none, m.2)
  else
    let r1 := PyType_Ready api .PyCameraType m.2
    if r1.1 < 0 then
      (Option.none, Py_DECREF_module (printf "Failed to initialize PyCameraType\n" r1.2))
    else
      let r2 := PyModule_AddObject api "PyCamera" .PyCameraType r1.2
      if r2.1 < 0 then
        (Option.none, Py_DECREF_module (Py_DECREF_type .PyCameraType
          (printf "Failed to add PyCamera to the module\n" r2.2)))
      else
        let r3 := PyType_Ready api .PyWindowType r2.2
        if r3.1 < 0 then
          (Option.none, Py_DECREF_module (printf "Failed to initialize PyWindowType\n" r3.2))
        else
          let r4 := PyModule_AddObject api "PyWindow" .PyWindowType r3.2
          if r4.1 < 0 then
            (Option.none, Py_DECREF_module (Py_DECREF_type .PyWindowType
              (printf "Failed to add PyWindow to the module\n" r4.2)))
          else
            (some r4.2.attrs, r4.2)

/-- The interpreter calls made during a run, in order. -/
def performedSteps (log : List InitEvent) : List InitStep :=
  log.filterMap (fun e => match e with
    | .call s => some s
    | _ => Option.none)

/-- The five steps of module initialisation in the order the specification lists them. -/
def initSteps : List InitStep :=
  [.PyModule_Create, .PyType_Ready .PyCameraType, .PyModule_AddObject "PyCamera" .PyCameraType,
    .PyType_Ready .PyWindowType, .PyModule_AddObject "PyWindow" .PyWindowType]

/-- Specification of the step sequence: run the steps in order and stop after the first one
that fails. -/
def runUntilFailure (api : InitApi) : List InitStep → List InitStep
  | [] => []
  | s :: rest => if api.succeeds s then s :: runUntilFailure api rest else [s]

/-! ## The operations by kind -/

/-- The two image kinds of the specification. -/
inductive Kind where
  | jpeg
  | png
  deriving DecidableEq, Repr

/-- The operation `encode-to-file(kind, path, width, height, pixels)` of the specification:
`saveJpeg` or `savePng`. -/
def encodeToFile : Kind → Runtime → Stbi → List PyObject → World → Option PyObject × World
  | .jpeg => saveJpeg
  | .png => savePng

/-- The operation `encode-to-memory(kind, width, height, pixels)` of the specification:
`saveJpegInMemory` or `savePngInMemory`. -/
def encodeToMemory : Kind → Runtime → Stbi → List PyObject → World → Option PyObject × World
  | .jpeg => saveJpegInMemory
  | .png => savePngInMemory

/-- The image writer entry point behind the file operation of a kind. -/
def fileEntry : Kind → StbiEntry
  | .jpeg => .stbi_write_jpg
  | .png => .stbi_write_png

/-- The image writer entry point behind the memory operation of a kind. -/
def memoryEntry : Kind → StbiEntry
  | .jpeg => .stbi_write_jpg_to_func
  | .png => .stbi_write_png_to_func

/-- The final encoder argument the module passes for a kind: quality `90` for JPEG, the row
stride `width * 3` (a C `int` product) for PNG. -/
def lastArg : Kind → Int → Int
  | .jpeg, _ => 90
  | .png, width => cMulInt width 3

/-- The status and the new file system the file encoder of a kind returns for the call the
module makes. -/
def fileOutcome (lib : Stbi) (kind : Kind) (filename : String) (w h : Int) (data : List Byte)
    (files : Files) : Int × Files :=
  match kind with
  | .jpeg => lib.write_jpg filename w h 3 data 90 files
  | .png => lib.write_png filename w h 3 data (cMulInt w 3) files

/-- The message of the runtime error raised by the file operation of a kind. -/
def fileFailure : Kind → String
  | .jpeg => "Failed to save JPEG file."
  | .png => "Failed to save PNG file."

/-- The message of the runtime error raised by the memory operation of a kind. -/
def memoryFailure : Kind → String
  | .jpeg => "Failed to save JPEG to memory."
  | .png => "Failed to save PNG to memory."

/-- The message of the size-mismatch error. -/
def sizeMismatch : String := "Invalid byte array size for the given width and height."

/-- The run the callback encoder of a kind performs for the given call. -/
def memoryRun (lib : Stbi) (kind : Kind) (w h : Int) (data : List Byte) : EncodeRun :=
  match kind with
  | .jpeg => lib.jpg_to_func w h 3 data 90
  | .png => lib.png_to_func w h 3 data (cMulInt w 3)

/-! ## Sample collaborators

Concrete collaborators on which the operations can be evaluated. -/

/-- A runtime whose byte array accessors read the length of a `bytes` object as the size, as
the shared variable-size object header makes the interpreter do, and see no data otherwise. -/
def sampleRuntime : Runtime where
  strayData := fun _ => []
  straySize := fun o => match o with
    | .bytes b => (b.length : Int)
    | _ => 0

/-- The status of the sample codec: it refuses images without pixels, as the image writer
does. -/
def sampleStatus (w h : Int) : Int := if 0 < w ∧ 0 < h then 1 else 0

/-- The JPEG routine of the sample codec: the pixel data framed by two marker chunks. -/
def sampleJpeg (w h : Int) (data : List Byte) : EncodeRun :=
  ⟨[⟨[0xFF, 0xD8, 0x00], 2⟩, ⟨data, (data.length : Int)⟩, ⟨[0xFF, 0xD9], 2⟩], sampleStatus w h⟩

/-- The PNG routine of the sample codec: a signature chunk followed by the pixel data. -/
def samplePng (w h : Int) (data : List Byte) : EncodeRun :=
  ⟨[⟨[0x89, 0x50, 0x4E, 0x47], 4⟩, ⟨data, (data.length : Int)⟩], sampleStatus w h⟩

/-- A codec on which the operations can be evaluated; every path but the empty one can be
opened. -/
def sampleCodec : Codec where
  jpeg := fun w h _ data _ => sampleJpeg w h data
  png := fun w h _ data _ => samplePng w h data
  canOpen := fun path => !path.data.isEmpty

/-- A world with no pending error, one existing file and no encoder call made yet. -/
def sampleWorld : World where
  err := Option.none
  files := [("old.png", [1, 2, 3])]
  calls := []

/-! ## Machine integer lemmas -/

theorem wrapInt32_of_fits (x : Int) (h : fitsInt x) : wrapInt32 x = x := by
  unfold fitsInt INT_MIN INT_MAX at h
  unfold wrapInt32
  omega

theorem wrapInt32_fits (x : Int) : fitsInt (wrapInt32 x) := by
  unfold fitsInt INT_MIN INT_MAX wrapInt32
  omega

theorem wrapInt32_congr (x : Int) : (wrapInt32 x - x) % 4294967296 = 0 := by
  unfold wrapInt32
  omega

theorem expectedSize_eq_wrap (width height : Int) :
    expectedSize width height = wrapInt32 (width * height * 3) := by
  unfold expectedSize cMulInt wrapInt32
  omega

theorem expectedSize_of_fits (width height : Int) (h1 : fitsInt (width * height))
    (h2 : fitsInt (width * height * 3)) : expectedSize width height = width * height * 3 := by
  unfold expectedSize cMulInt
  rw [wrapInt32_of_fits _ h1, wrapInt32_of_fits _ h2]

/-! ## Argument parsing lemmas -/

theorem parse_file_args (filename : String) (width height : Int) (pixels : PyObject)
    (hfn : Char.ofNat 0 ∉ filename.data) (hw : fitsInt width) (hh : fitsInt height) :
    PyArg_ParseTuple [.str filename, .int width, .int height, pixels] "siiO"
      = some [.cstr filename, .cint width, .cint height, .obj pixels] := by
  simp [PyArg_ParseTuple, parseItems, convertItem, hfn, hw, hh]

theorem parse_memory_args (width height : Int) (pixels : PyObject)
    (hw : fitsInt width) (hh : fitsInt height) :
    PyArg_ParseTuple [.int width, .int height, pixels] "iiO"
      = some [.cint width, .cint height, .obj pixels] := by
  simp [PyArg_ParseTuple, parseItems, convertItem, hw, hh]

/-! ## The encode operations, unfolded -/

theorem encodeToFile_of_parse (kind : Kind) (rt : Runtime) (lib : Stbi) (args : List PyObject)
    (W : World) (filename : String) (width height : Int) (o : PyObject)
    (hp : PyArg_ParseTuple args "siiO"
      = some [.cstr filename, .cint width, .cint height, .obj o]) :
    encodeToFile kind rt lib args W =
      if PyByteArray_Size rt o ≠ expectedSize width height then
        (Option.none, ⟨some ⟨.ValueError, sizeMismatch⟩, W.files, W.calls⟩)
      else if (fileOutcome lib kind filename width height (PyByteArray_AsString rt o)
          W.files).1 ≠ 0 then
        (some .none, ⟨W.err,
          (fileOutcome lib kind filename width height (PyByteArray_AsString rt o) W.files).2,
          W.calls ++ [⟨fileEntry kind, some filename, width, height, 3,
            PyByteArray_AsString rt o, lastArg kind width⟩]⟩)
      else
        (Option.none, ⟨some ⟨.RuntimeError, fileFailure kind⟩,
          (fileOutcome lib kind filename width height (PyByteArray_AsString rt o) W.files).2,
          W.calls ++ [⟨fileEntry kind, some filename, width, height, 3,
            PyByteArray_AsString rt o, lastArg kind width⟩]⟩) := by
  cases kind
  · simp only [encodeToFile, saveJpeg, hp, stbi_write_jpg, PyErr_SetString, fileOutcome,
      fileEntry, lastArg, fileFailure, sizeMismatch]
  · simp only [encodeToFile, savePng, hp, stbi_write_png, PyErr_SetString, fileOutcome,
      fileEntry, lastArg, fileFailure, sizeMismatch]

theorem encodeToMemory_of_parse (kind : Kind) (rt : Runtime) (lib : Stbi)
    (args : List PyObject) (W : World) (width height : Int) (o : PyObject)
    (hp : PyArg_ParseTuple args "iiO" = some [.cint width, .cint height, .obj o]) :
    encodeToMemory kind rt lib args W =
      if PyByteArray_Size rt o ≠ expectedSize width height then
        (Option.none, ⟨some ⟨.ValueError, sizeMismatch⟩, W.files, W.calls⟩)
      else if (memoryRun lib kind width height (PyByteArray_AsString rt o)).status ≠ 0 then
        (some (.bytes ((memoryRun lib kind width height
            (PyByteArray_AsString rt o)).chunks.foldl write_to_memory [])),
          ⟨W.err, W.files,
            W.calls ++ [⟨memoryEntry kind, Option.none, width, height, 3,
              PyByteArray_AsString rt o, lastArg kind width⟩]⟩)
      else
        (Option.none, ⟨some ⟨.RuntimeError, memoryFailure kind⟩, W.files,
          W.calls ++ [⟨memoryEntry kind, Option.none, width, height, 3,
            PyByteArray_AsString rt o, lastArg kind width⟩]⟩) := by
  cases kind
  · simp only [encodeToMemory, saveJpegInMemory, hp, stbi_write_jpg_to_func, PyErr_SetString,
      memoryRun, memoryEntry, lastArg, memoryFailure, sizeMismatch]
  · simp only [encodeToMemory, savePngInMemory, hp, stbi_write_png_to_func, PyErr_SetString,
      memoryRun, memoryEntry, lastArg, memoryFailure, sizeMismatch]

theorem encodeToFile_parse_or_typeError (kind : Kind) (rt : Runtime) (lib : Stbi)
    (args : List PyObject) (W : World) :
    (∃ filename width height o, PyArg_ParseTuple args "siiO"
        = some [.cstr filename, .cint width, .cint height, .obj o]) ∨
      encodeToFile kind rt lib args W = (Option.none,
        ⟨some ⟨.TypeError, "Expected arguments: str, int, int, PyByteArray"⟩,
          W.files, W.calls⟩) := by
  cases kind
  · simp only [encodeToFile]
    unfold saveJpeg
    split
    · next h => exact Or.inl ⟨_, _, _, _, h⟩
    · exact Or.inr rfl
  · simp only [encodeToFile]
    unfold savePng
    split
    · next h => exact Or.inl ⟨_, _, _, _, h⟩
    · exact Or.inr rfl

theorem encodeToMemory_parse_or_typeError (kind : Kind) (rt : Runtime) (lib : Stbi)
    (args : List PyObject) (W : World) :
    (∃ width height o, PyArg_ParseTuple args "iiO"
        = some [.cint width, .cint height, .obj o]) ∨
      encodeToMemory kind rt lib args W = (Option.none,
        ⟨some ⟨.TypeError, "Expected arguments: int, int, PyByteArray"⟩,
          W.files, W.calls⟩) := by
  cases kind
  · simp only [encodeToMemory]
    unfold saveJpegInMemory
    split
    · next h => exact Or.inl ⟨_, _, _, h⟩
    · exact Or.inr rfl
  · simp only [encodeToMemory]
    unfold savePngInMemory
    split
    · next h => exact Or.inl ⟨_, _, _, h⟩
    · exact Or.inr rfl

/-- A call whose argument tuple does not parse fails with the argument error and leaves the
file system and the encoder untouched. -/
theorem parse_failure_is_type_error (kind : Kind) (rt : Runtime) (lib : Stbi)
    (fargs margs : List PyObject) (W : World)
    (hf : PyArg_ParseTuple fargs "siiO" = Option.none)
    (hm : PyArg_ParseTuple margs "iiO" = Option.none) :
    (failsWith (encodeToFile kind rt lib fargs W) .TypeError
        ∧ (encodeToFile kind rt lib fargs W).2.files = W.files
        ∧ (encodeToFile kind rt lib fargs W).2.calls = W.calls)
      ∧ (failsWith (encodeToMemory kind rt lib margs W) .TypeError
        ∧ (encodeToMemory kind rt lib margs W).2.files = W.files
        ∧ (encodeToMemory kind rt lib margs W).2.calls = W.calls) := by
  constructor
  · rcases encodeToFile_parse_or_typeError kind rt lib fargs W with ⟨_, _, _, _, h⟩ | h
    · rw [hf] at h; cases h
    · rw [h]; exact ⟨⟨rfl, _, rfl⟩, rfl, rfl⟩
  · rcases encodeToMemory_parse_or_typeError kind rt lib margs W with ⟨_, _, _, h⟩ | h
    · rw [hm] at h; cases h
    · rw [h]; exact ⟨⟨rfl, _, rfl⟩, rfl, rfl⟩

/-- Within the range of `int` the size check works on the mathematical product: a buffer whose
length differs from `width * height * 3` is rejected with the size-mismatch error and neither
the encoder nor the file system is touched. -/
theorem size_mismatch_rejected_of_fits (kind : Kind) (rt : Runtime) (lib : Stbi) (W : World)
    (filename : String) (width height : Int) (pixels : List Byte)
    (hfn : Char.ofNat 0 ∉ filename.data) (hw : fitsInt width) (hh : fitsInt height)
    (h1 : fitsInt (width * height)) (h2 : fitsInt (width * height * 3))
    (hne : (pixels.length : Int) ≠ width * height * 3) :
    encodeToFile kind rt lib [.str filename, .int width, .int height, .bytearray pixels] W
        = (Option.none, ⟨some ⟨.ValueError, sizeMismatch⟩, W.files, W.calls⟩)
      ∧ encodeToMemory kind rt lib [.int width, .int height, .bytearray pixels] W
        = (Option.none, ⟨some ⟨.ValueError, sizeMismatch⟩, W.files, W.calls⟩) := by
  have hs : PyByteArray_Size rt (.bytearray pixels) ≠ expectedSize width height := by
    rw [expectedSize_of_fits _ _ h1 h2]; exact hne
  constructor
  · rw [encodeToFile_of_parse kind rt lib _ W _ _ _ _ (parse_file_args _ _ _ _ hfn hw hh),
      if_pos hs]
  · rw [encodeToMemory_of_parse kind rt lib _ W _ _ _ (parse_memory_args _ _ _ hw hh),
      if_pos hs]

/-! ## Claims on the encoder status and on the memory buffer -/

/-- C3. When the arguments parse and the pixel buffer passes the size check, each of the four
operations fails with the runtime error, returning no result, exactly when the encoder returns
status zero; on a non-zero status the file operations return `None` and the memory operations
return a `bytes` object. -/
theorem encoder_status_decides_result (kind : Kind) (rt : Runtime) (lib : Stbi)
    (fargs margs : List PyObject) (W : World) (filename : String) (width height : Int)
    (o : PyObject)
    (hpf : PyArg_ParseTuple fargs "siiO"
      = some [.cstr filename, .cint width, .cint height, .obj o])
    (hpm : PyArg_ParseTuple margs "iiO" = some [.cint width, .cint height, .obj o])
    (hsize : PyByteArray_Size rt o = expectedSize width height) :
    (failsWith (encodeToFile kind rt lib fargs W) .RuntimeError
        ↔ (fileOutcome lib kind filename width height (PyByteArray_AsString rt o) W.files).1 = 0)
      ∧ ((fileOutcome lib kind filename width height (PyByteArray_AsString rt o) W.files).1 ≠ 0
        → (encodeToFile kind rt lib fargs W).1 = some .none)
      ∧ (failsWith (encodeToMemory kind rt lib margs W) .RuntimeError
        ↔ (memoryRun lib kind width height (PyByteArray_AsString rt o)).status = 0)
      ∧ ((memoryRun lib kind width height (PyByteArray_AsString rt o)).status ≠ 0
        → ∃ b, (encodeToMemory kind rt lib margs W).1 = some (.bytes b)) := by
  rw [encodeToFile_of_parse kind rt lib _ W _ _ _ _ hpf,
    encodeToMemory_of_parse kind rt lib _ W _ _ _ hpm]
  simp only [hsize, ne_eq, not_true_eq_false, if_false]
  refine ⟨?_, ?_, ?_, ?_⟩
  · by_cases hst : (fileOutcome lib kind filename width height (PyByteArray_AsString rt o)
        W.files).1 = 0
    · simp [hst, failsWith]
    · simp [hst, failsWith]
  · intro hst
    simp [hst]
  · by_cases hst : (memoryRun lib kind width height (PyByteArray_AsString rt o)).status = 0
    · simp [hst, failsWith]
    · simp [hst, failsWith]
  · intro hst
    simp [hst]

/-- Folding the callback over the emitted chunks appends, to the starting buffer, the first
`size` bytes of every chunk in emission order. -/
theorem foldl_write_to_memory (chunks : List Chunk) (buffer : List Byte) :
    chunks.foldl write_to_memory buffer
      = buffer ++ (chunks.map (fun c => c.data.take c.size.toNat)).flatten := by
  induction chunks generalizing buffer with
  | nil => simp
  | cons c cs ih =>
    simp only [List.foldl_cons, ih, write_to_memory, List.map_cons, List.flatten_cons,
      List.append_assoc]

/-- C4. Every successful call of `saveJpegInMemory` or `savePngInMemory` returns a `bytes`
object holding the concatenation, in emission order and starting from the empty buffer, of the
chunks the encoder passed to `write_to_memory`; each callback invocation keeps the bytes
accumulated so far and appends exactly the first `size` bytes of `data`. -/
theorem memory_result_is_chunk_concatenation (kind : Kind) (rt : Runtime) (lib : Stbi)
    (args : List PyObject) (W : World) (result : PyObject)
    (hok : (encodeToMemory kind rt lib args W).1 = some result) :
    (∃ width height o,
        PyArg_ParseTuple args "iiO" = some [.cint width, .cint height, .obj o]
        ∧ result = .bytes (((memoryRun lib kind width height
            (PyByteArray_AsString rt o)).chunks.map
              (fun c => c.data.take c.size.toNat)).flatten)
        ∧ (memoryRun lib kind width height (PyByteArray_AsString rt o)).chunks.foldl
            write_to_memory []
          = ((memoryRun lib kind width height (PyByteArray_AsString rt o)).chunks.map
              (fun c => c.data.take c.size.toNat)).flatten)
      ∧ ∀ (buffer : List Byte) (chunk : Chunk),
          (write_to_memory buffer chunk).take buffer.length = buffer
          ∧ (write_to_memory buffer chunk).drop buffer.length
            = chunk.data.take chunk.size.toNat := by
  constructor
  · rcases encodeToMemory_parse_or_typeError kind rt lib args W with ⟨width, height, o, hp⟩ | h
    · refine ⟨width, height, o, hp, ?_, ?_⟩
      · rw [encodeToMemory_of_parse kind rt lib _ W _ _ _ hp] at hok
        split at hok
        · cases hok
        · split at hok
          · simp only [Option.some.injEq] at hok
            rw [← hok, foldl_write_to_memory, List.nil_append]
          · cases hok
      · rw [foldl_write_to_memory, List.nil_append]
    · rw [h] at hok
      cases hok
  · intro buffer chunk
    simp [write_to_memory]

/-- C4 on the sample codec: a 1 × 1 JPEG call returns the two marker bytes, the three pixel
bytes and the two closing marker bytes. -/
theorem memory_result_is_chunk_concatenation_witness :
    (encodeToMemory .jpeg sampleRuntime sampleCodec.toStbi
        [.int 1, .int 1, .bytearray [7, 8, 9]] sampleWorld).1
      = some (.bytes [0xFF, 0xD8, 7, 8, 9, 0xFF, 0xD9])
    ∧ ∃ width height o,
        PyArg_ParseTuple [.int 1, .int 1, .bytearray [7, 8, 9]] "iiO"
          = some [.cint width, .cint height, .obj o]
        ∧ PyObject.bytes [0xFF, 0xD8, 7, 8, 9, 0xFF, 0xD9]
          = .bytes (((memoryRun sampleCodec.toStbi .jpeg width height
            (PyByteArray_AsString sampleRuntime o)).chunks.map
              (fun c => c.data.take c.size.toNat)).flatten) :=
  ⟨by decide,
    let ⟨w, h, o, hp, hr, _⟩ := (memory_result_is_chunk_concatenation .jpeg sampleRuntime
      sampleCodec.toStbi [.int 1, .int 1, .bytearray [7, 8, 9]] sampleWorld
      (.bytes [0xFF, 0xD8, 7, 8, 9, 0xFF, 0xD9]) (by decide)).1
    ⟨w, h, o, hp, hr⟩⟩

/-- C3 on the sample codec: the arguments parse, the size check passes, the encoder reports
success for a 1 × 1 image, so `saveJpeg` returns `None`. -/
theorem encoder_status_decides_result_witness :
    PyArg_ParseTuple [.str "a.jpg", .int 1, .int 1, .bytearray [7, 8, 9]] "siiO"
        = some [.cstr "a.jpg", .cint 1, .cint 1, .obj (.bytearray [7, 8, 9])]
      ∧ PyArg_ParseTuple [.int 1, .int 1, .bytearray [7, 8, 9]] "iiO"
        = some [.cint 1, .cint 1, .obj (.bytearray [7, 8, 9])]
      ∧ PyByteArray_Size sampleRuntime (.bytearray [7, 8, 9]) = expectedSize 1 1
      ∧ (encodeToFile .jpeg sampleRuntime sampleCodec.toStbi
          [.str "a.jpg", .int 1, .int 1, .bytearray [7, 8, 9]] sampleWorld).1 = some .none :=
  ⟨by decide, by decide, by decide,
    (encoder_status_decides_result .jpeg sampleRuntime sampleCodec.toStbi
      [.str "a.jpg", .int 1, .int 1, .bytearray [7, 8, 9]]
      [.int 1, .int 1, .bytearray [7, 8, 9]] sampleWorld "a.jpg" 1 1 (.bytearray [7, 8, 9])
      (by decide) (by decide) (by decide)).2.1 (by decide)⟩

/-! ## Claims on the file content, the encoder arguments and the size arithmetic -/

theorem readFile_writeFile (files : Files) (path : String) (content : List Byte) :
    readFile (writeFile files path content) path = some content := by
  simp [readFile, writeFile]

theorem fileOutcome_toStbi (codec : Codec) (kind : Kind) (filename : String) (w h : Int)
    (data : List Byte) (files : Files) :
    fileOutcome codec.toStbi kind filename w h data files =
      if codec.canOpen filename then
        ((memoryRun codec.toStbi kind w h data).status,
          writeFile files filename (memoryRun codec.toStbi kind w h data).output)
      else (0, files) := by
  cases kind <;> rfl

/-- C5. For the image writer as the specification describes it, and for either kind: when the
file operation and the memory operation are called with the same width, height and pixels and
both succeed, the file read back at the path holds exactly the bytes the memory operation
returned. -/
theorem file_content_equals_memory_bytes (kind : Kind) (rt : Runtime) (codec : Codec)
    (fargs margs : List PyObject) (Wf Wm : World) (filename : String) (width height : Int)
    (o : PyObject) (b : List Byte)
    (hpf : PyArg_ParseTuple fargs "siiO"
      = some [.cstr filename, .cint width, .cint height, .obj o])
    (hpm : PyArg_ParseTuple margs "iiO" = some [.cint width, .cint height, .obj o])
    (hf : (encodeToFile kind rt codec.toStbi fargs Wf).1 = some .none)
    (hm : (encodeToMemory kind rt codec.toStbi margs Wm).1 = some (.bytes b)) :
    readFile (encodeToFile kind rt codec.toStbi fargs Wf).2.files filename = some b := by
  rw [encodeToMemory_of_parse kind rt _ _ Wm _ _ _ hpm] at hm
  rw [encodeToFile_of_parse kind rt _ _ Wf _ _ _ _ hpf] at hf ⊢
  rw [fileOutcome_toStbi] at hf ⊢
  split at hm
  · cases hm
  · next hsz =>
    rw [if_neg hsz] at hf ⊢
    split at hm
    · simp only [Option.some.injEq, PyObject.bytes.injEq] at hm
      rw [foldl_write_to_memory, List.nil_append] at hm
      by_cases hopen : codec.canOpen filename = true
      · simp only [hopen, if_true] at hf ⊢
        split
        · simp only [readFile_writeFile, EncodeRun.output, hm]
        · next hst => rw [if_neg hst] at hf; cases hf
      · simp [hopen] at hf
    · cases hm

/-- C5 on the sample codec: a 1 × 1 PNG written to `a.png` reads back as the bytes returned
by the memory operation. -/
theorem file_content_equals_memory_bytes_witness :
    PyArg_ParseTuple [.str "a.png", .int 1, .int 1, .bytearray [7, 8, 9]] "siiO"
        = some [.cstr "a.png", .cint 1, .cint 1, .obj (.bytearray [7, 8, 9])]
      ∧ PyArg_ParseTuple [.int 1, .int 1, .bytearray [7, 8, 9]] "iiO"
        = some [.cint 1, .cint 1, .obj (.bytearray [7, 8, 9])]
      ∧ (encodeToFile .png sampleRuntime sampleCodec.toStbi
          [.str "a.png", .int 1, .int 1, .bytearray [7, 8, 9]] sampleWorld).1 = some .none
      ∧ (encodeToMemory .png sampleRuntime sampleCodec.toStbi
          [.int 1, .int 1, .bytearray [7, 8, 9]] sampleWorld).1
        = some (.bytes [0x89, 0x50, 0x4E, 0x47, 7, 8, 9])
      ∧ readFile (encodeToFile .png sampleRuntime sampleCodec.toStbi
          [.str "a.png", .int 1, .int 1, .bytearray [7, 8, 9]] sampleWorld).2.files "a.png"
        = some [0x89, 0x50, 0x4E, 0x47, 7, 8, 9] :=
  ⟨by decide, by decide, by decide, by decide,
    file_content_equals_memory_bytes .png sampleRuntime sampleCodec
      [.str "a.png", .int 1, .int 1, .bytearray [7, 8, 9]]
      [.int 1, .int 1, .bytearray [7, 8, 9]] sampleWorld sampleWorld "a.png" 1 1
      (.bytearray [7, 8, 9]) [0x89, 0x50, 0x4E, 0x47, 7, 8, 9]
      (by decide) (by decide) (by decide) (by decide)⟩

theorem calls_of_size_ok_file (kind : Kind) (rt : Runtime) (lib : Stbi) (W : World)
    (filename : String) (width height : Int) (pixels : PyObject)
    (hfn : Char.ofNat 0 ∉ filename.data) (hw : fitsInt width) (hh : fitsInt height)
    (hsize : PyByteArray_Size rt pixels = expectedSize width height) :
    (encodeToFile kind rt lib [.str filename, .int width, .int height, pixels] W).2.calls
      = W.calls ++ [⟨fileEntry kind, some filename, width, height, 3,
          PyByteArray_AsString rt pixels, lastArg kind width⟩] := by
  rw [encodeToFile_of_parse kind rt lib _ W _ _ _ _ (parse_file_args _ _ _ _ hfn hw hh)]
  simp only [hsize, ne_eq, not_true_eq_false, if_false]
  split <;> rfl

theorem calls_of_size_ok_memory (kind : Kind) (rt : Runtime) (lib : Stbi) (W : World)
    (width height : Int) (pixels : PyObject) (hw : fitsInt width) (hh : fitsInt height)
    (hsize : PyByteArray_Size rt pixels = expectedSize width height) :
    (encodeToMemory kind rt lib [.int width, .int height, pixels] W).2.calls
      = W.calls ++ [⟨memoryEntry kind, Option.none, width, height, 3,
          PyByteArray_AsString rt pixels, lastArg kind width⟩] := by
  rw [encodeToMemory_of_parse kind rt lib _ W _ _ _ (parse_memory_args _ _ _ hw hh)]
  simp only [hsize, ne_eq, not_true_eq_false, if_false]
  split <;> rfl

theorem sizeCheckPasses_file_iff (kind : Kind) (rt : Runtime) (lib : Stbi)
    (args : List PyObject) (W : World) (filename : String) (width height : Int) (o : PyObject)
    (hp : PyArg_ParseTuple args "siiO"
      = some [.cstr filename, .cint width, .cint height, .obj o]) :
    sizeCheckPasses (encodeToFile kind rt lib args W)
      ↔ PyByteArray_Size rt o = expectedSize width height := by
  rw [encodeToFile_of_parse kind rt lib _ W _ _ _ _ hp]
  by_cases hs : PyByteArray_Size rt o = expectedSize width height
  · simp only [hs, ne_eq, not_true_eq_false, if_false, iff_true]
    split <;> simp [sizeCheckPasses, failsWith]
  · simp [hs, sizeCheckPasses, failsWith]

theorem sizeCheckPasses_memory_iff (kind : Kind) (rt : Runtime) (lib : Stbi)
    (args : List PyObject) (W : World) (width height : Int) (o : PyObject)
    (hp : PyArg_ParseTuple args "iiO" = some [.cint width, .cint height, .obj o]) :
    sizeCheckPasses (encodeToMemory kind rt lib args W)
      ↔ PyByteArray_Size rt o = expectedSize width height := by
  rw [encodeToMemory_of_parse kind rt lib _ W _ _ _ hp]
  by_cases hs : PyByteArray_Size rt o = expectedSize width height
  · simp only [hs, ne_eq, not_true_eq_false, if_false, iff_true]
    split <;> simp [sizeCheckPasses, failsWith]
  · simp [hs, sizeCheckPasses, failsWith]

/-- C10. The size check of each of the four operations compares the buffer length with
`width * height * 3` evaluated in 32-bit signed arithmetic: it passes exactly when the length
equals the product brought into the `int` range modulo `2^32`. When `width * height` and
`width * height * 3` both fit an `int` this is the mathematical product, so the check passes
exactly when `len(pixels) = width * height * 3`; a negative product is always rejected and a
zero product is accepted exactly for the empty buffer. -/
theorem size_check_is_int32_product (kind : Kind) (rt : Runtime) (lib : Stbi) (W : World)
    (filename : String) (width height : Int) (pixels : List Byte)
    (hfn : Char.ofNat 0 ∉ filename.data) (hw : fitsInt width) (hh : fitsInt height) :
    (sizeCheckPasses (encodeToFile kind rt lib
          [.str filename, .int width, .int height, .bytearray pixels] W)
        ↔ (pixels.length : Int) = wrapInt32 (width * height * 3))
      ∧ (sizeCheckPasses (encodeToMemory kind rt lib
          [.int width, .int height, .bytearray pixels] W)
        ↔ (pixels.length : Int) = wrapInt32 (width * height * 3))
      ∧ fitsInt (wrapInt32 (width * height * 3))
      ∧ (wrapInt32 (width * height * 3) - width * height * 3) % 4294967296 = 0
      ∧ (fitsInt (width * height) → fitsInt (width * height * 3) →
          (sizeCheckPasses (encodeToFile kind rt lib
              [.str filename, .int width, .int height, .bytearray pixels] W)
            ↔ (pixels.length : Int) = width * height * 3)
          ∧ (sizeCheckPasses (encodeToMemory kind rt lib
              [.int width, .int height, .bytearray pixels] W)
            ↔ (pixels.length : Int) = width * height * 3)
          ∧ (width * height * 3 < 0 →
              ¬ sizeCheckPasses (encodeToFile kind rt lib
                [.str filename, .int width, .int height, .bytearray pixels] W)
              ∧ ¬ sizeCheckPasses (encodeToMemory kind rt lib
                [.int width, .int height, .bytearray pixels] W))
          ∧ (width * height * 3 = 0 →
              (sizeCheckPasses (encodeToFile kind rt lib
                  [.str filename, .int width, .int height, .bytearray pixels] W)
                ↔ pixels = [])
              ∧ (sizeCheckPasses (encodeToMemory kind rt lib
                  [.int width, .int height, .bytearray pixels] W)
                ↔ pixels = []))) := by
  have hf := sizeCheckPasses_file_iff kind rt lib _ W _ _ _ _
    (parse_file_args filename width height (.bytearray pixels) hfn hw hh)
  have hm := sizeCheckPasses_memory_iff kind rt lib _ W _ _ _
    (parse_memory_args width height (.bytearray pixels) hw hh)
  rw [expectedSize_eq_wrap] at hf hm
  have hlen : PyByteArray_Size rt (.bytearray pixels) = (pixels.length : Int) := rfl
  rw [hlen] at hf hm
  refine ⟨hf, hm, wrapInt32_fits _, wrapInt32_congr _, ?_⟩
  intro _ h2
  rw [wrapInt32_of_fits _ h2] at hf hm
  refine ⟨hf, hm, ?_, ?_⟩
  · intro hneg
    have hpos : (0 : Int) ≤ (pixels.length : Int) := Int.ofNat_nonneg _
    constructor
    · rw [hf]; omega
    · rw [hm]; omega
  · intro hzero
    rw [hf, hm, hzero]
    have hl : (pixels.length : Int) = 0 ↔ pixels = [] := by
      rw [Int.natCast_eq_zero, List.length_eq_zero]
    exact ⟨hl, hl⟩

/-- C10 on a 2 × 1 image: six bytes pass the size check of `savePng`. -/
theorem size_check_is_int32_product_witness :
    Char.ofNat 0 ∉ "a.png".data ∧ fitsInt 2 ∧ fitsInt 1
      ∧ sizeCheckPasses (encodeToFile .png sampleRuntime sampleCodec.toStbi
          [.str "a.png", .int 2, .int 1, .bytearray [1, 2, 3, 4, 5, 6]] sampleWorld) :=
  ⟨by decide, by decide, by decide,
    (size_check_is_int32_product .png sampleRuntime sampleCodec.toStbi sampleWorld "a.png" 2 1
      [1, 2, 3, 4, 5, 6] (by decide) (by decide) (by decide)).1.mpr (by decide)⟩

/-! ## Claims on the size check and on argument parsing -/

/-- C1 (evaluation at the failing input). With `width = height = 65536` and an empty pixel
buffer the length `0` differs from the mathematical product `65536 * 65536 * 3`, yet the
`int` product is `0`: none of the four operations raises the size-mismatch error and each one
invokes the encoder, with dimensions `65536 × 65536` and an empty buffer. -/
theorem size_check_overflow_reaches_encoder (kind : Kind) (rt : Runtime) (lib : Stbi)
    (W : World) :
    ((([] : List Byte).length : Int) ≠ 65536 * 65536 * 3)
      ∧ ¬ failsWith (encodeToFile kind rt lib
          [.str "a.img", .int 65536, .int 65536, .bytearray []] W) .ValueError
      ∧ (encodeToFile kind rt lib
          [.str "a.img", .int 65536, .int 65536, .bytearray []] W).2.calls
        = W.calls ++ [⟨fileEntry kind, some "a.img", 65536, 65536, 3, [], lastArg kind 65536⟩]
      ∧ ¬ failsWith (encodeToMemory kind rt lib
          [.int 65536, .int 65536, .bytearray []] W) .ValueError
      ∧ (encodeToMemory kind rt lib [.int 65536, .int 65536, .bytearray []] W).2.calls
        = W.calls ++ [⟨memoryEntry kind, Option.none, 65536, 65536, 3, [],
            lastArg kind 65536⟩] := by
  have hpf : PyArg_ParseTuple [.str "a.img", .int 65536, .int 65536, .bytearray []] "siiO"
      = some [.cstr "a.img", .cint 65536, .cint 65536, .obj (.bytearray [])] := by decide
  have hpm : PyArg_ParseTuple [.int 65536, .int 65536, .bytearray []] "iiO"
      = some [.cint 65536, .cint 65536, .obj (.bytearray [])] := by decide
  have he : expectedSize 65536 65536 = 0 := by decide
  have hs : PyByteArray_Size rt (.bytearray []) = expectedSize 65536 65536 := by
    rw [he]; rfl
  rw [encodeToFile_of_parse kind rt lib _ W _ _ _ _ hpf,
    encodeToMemory_of_parse kind rt lib _ W _ _ _ hpm]
  simp only [hs, ne_eq, not_true_eq_false, if_false]
  refine ⟨by decide, ?_, ?_, ?_, ?_⟩
  · split <;> simp [failsWith, PyByteArray_AsString]
  · split <;> simp [PyByteArray_AsString]
  · split <;> simp [failsWith, PyByteArray_AsString]
  · split <;> simp [PyByteArray_AsString]

/-- C2 (evaluation at the failing input). A `bytes` object in the pixels position is not a byte
array, yet the argument tuple parses (the format unit `O` takes any object) and none of the
four operations fails with the argument error: each goes on to the byte array accessors and the
size check, and invokes the encoder when the accessor reads a size of 3 from the object. -/
theorem non_bytearray_pixels_pass_parsing (kind : Kind) (rt : Runtime) (lib : Stbi)
    (W : World) :
    PyArg_ParseTuple [.str "a.img", .int 1, .int 1, .bytes [0, 0, 0]] "siiO"
        = some [.cstr "a.img", .cint 1, .cint 1, .obj (.bytes [0, 0, 0])]
      ∧ PyArg_ParseTuple [.int 1, .int 1, .bytes [0, 0, 0]] "iiO"
        = some [.cint 1, .cint 1, .obj (.bytes [0, 0, 0])]
      ∧ ¬ failsWith (encodeToFile kind rt lib
          [.str "a.img", .int 1, .int 1, .bytes [0, 0, 0]] W) .TypeError
      ∧ ¬ failsWith (encodeToMemory kind rt lib
          [.int 1, .int 1, .bytes [0, 0, 0]] W) .TypeError
      ∧ (rt.straySize (.bytes [0, 0, 0]) = 3 →
          (encodeToFile kind rt lib
              [.str "a.img", .int 1, .int 1, .bytes [0, 0, 0]] W).2.calls
            = W.calls ++ [⟨fileEntry kind, some "a.img", 1, 1, 3,
                rt.strayData (.bytes [0, 0, 0]), lastArg kind 1⟩]
          ∧ (encodeToMemory kind rt lib
              [.int 1, .int 1, .bytes [0, 0, 0]] W).2.calls
            = W.calls ++ [⟨memoryEntry kind, Option.none, 1, 1, 3,
                rt.strayData (.bytes [0, 0, 0]), lastArg kind 1⟩]) := by
  have hpf : PyArg_ParseTuple [.str "a.img", .int 1, .int 1, .bytes [0, 0, 0]] "siiO"
      = some [.cstr "a.img", .cint 1, .cint 1, .obj (.bytes [0, 0, 0])] := by decide
  have hpm : PyArg_ParseTuple [.int 1, .int 1, .bytes [0, 0, 0]] "iiO"
      = some [.cint 1, .cint 1, .obj (.bytes [0, 0, 0])] := by decide
  have he : expectedSize 1 1 = 3 := by decide
  refine ⟨hpf, hpm, ?_, ?_, ?_⟩
  · rw [encodeToFile_of_parse kind rt lib _ W _ _ _ _ hpf]
    split
    · simp [failsWith]
    · split <;> simp [failsWith]
  · rw [encodeToMemory_of_parse kind rt lib _ W _ _ _ hpm]
    split
    · simp [failsWith]
    · split <;> simp [failsWith]
  · intro hstray
    have hs : PyByteArray_Size rt (.bytes [0, 0, 0]) = expectedSize 1 1 := by
      rw [he]; exact hstray
    exact ⟨calls_of_size_ok_file kind rt lib W "a.img" 1 1 (.bytes [0, 0, 0])
        (by decide) (by decide) (by decide) hs,
      calls_of_size_ok_memory kind rt lib W 1 1 (.bytes [0, 0, 0])
        (by decide) (by decide) hs⟩

/-! ## Claims on device enumeration -/

/-- The loop of `getDeviceList`, started from any list and error indicator, appends the
converted names of the devices whose conversion succeeds, in order. -/
theorem getDeviceList_loop {Name : Type} (toUnicode : Name → Except PyErr String)
    (devices : List (CaptureDeviceInfo Name)) (acc : List String) (err : Option PyErr) :
    (devices.foldl
        (fun (acc : List String × Option PyErr) device =>
          match toUnicode device.friendlyName with
          | .ok pyName => (acc.1 ++ [pyName], acc.2)
          | .error e => (acc.1, some e))
        (acc, err)).1
      = acc ++ devices.filterMap (fun d => (toUnicode d.friendlyName).toOption) := by
  induction devices generalizing acc err with
  | nil => simp
  | cons d ds ih =>
    rw [List.foldl_cons]
    cases hconv : toUnicode d.friendlyName with
    | ok name => simp [ih, hconv, Except.toOption, List.filterMap_cons]
    | error e => simp [ih, hconv, Except.toOption, List.filterMap_cons]

/-- The pointer `getDeviceList` returns is never `NULL`: it is the list of the converted names
of the devices whose conversion succeeds, in enumeration order. This says nothing of the error
indicator, which `getDeviceList_error_indicator` and `getDeviceList_error_unchanged` cover. -/
theorem getDeviceList_returned_pointer {Name : Type}
    (toUnicode : Name → Except PyErr String) (devices : List (CaptureDeviceInfo Name))
    (err : Option PyErr) :
    (getDeviceList toUnicode devices err).1
      = some (.list (devices.filterMap (fun d => (toUnicode d.friendlyName).toOption))) := by
  simp only [getDeviceList, getDeviceList_loop, List.nil_append]

/-- A conversion failure leaves its exception in the error indicator: `getDeviceList` does not
clear it before returning the list. -/
theorem getDeviceList_error_indicator {Name : Type} (toUnicode : Name → Except PyErr String)
    (devices : List (CaptureDeviceInfo Name)) (err : Option PyErr)
    (hfail : ∃ d ∈ devices, (toUnicode d.friendlyName).toBool = false) :
    (getDeviceList toUnicode devices err).2 ≠ Option.none := by
  have hloop : ∀ (ds : List (CaptureDeviceInfo Name)) (acc : List String)
      (e0 : Option PyErr),
      (e0 ≠ Option.none ∨ ∃ d ∈ ds, (toUnicode d.friendlyName).toBool = false) →
      (ds.foldl
        (fun (acc : List String × Option PyErr) device =>
          match toUnicode device.friendlyName with
          | .ok pyName => (acc.1 ++ [pyName], acc.2)
          | .error e => (acc.1, some e))
        (acc, e0)).2 ≠ Option.none := by
    intro ds
    induction ds with
    | nil =>
      intro acc e0 h
      rcases h with h | ⟨d, hd, _⟩
      · exact h
      · cases hd
    | cons d ds ih =>
      intro acc e0 h
      rw [List.foldl_cons]
      cases hconv : toUnicode d.friendlyName with
      | ok name =>
        apply ih
        rcases h with h | ⟨x, hx, hxf⟩
        · exact Or.inl h
        · rcases List.mem_cons.mp hx with hxd | hxs
          · rw [hxd, hconv] at hxf
            cases hxf
          · exact Or.inr ⟨x, hxs, hxf⟩
      | error e =>
        apply ih
        exact Or.inl (by simp)
  exact hloop devices [] err (Or.inr hfail)

/-- When every conversion succeeds `getDeviceList` leaves the error indicator as it found
it. -/
theorem getDeviceList_error_unchanged {Name : Type} (toUnicode : Name → Except PyErr String)
    (devices : List (CaptureDeviceInfo Name)) (err : Option PyErr)
    (hall : ∀ d ∈ devices, (toUnicode d.friendlyName).toBool = true) :
    (getDeviceList toUnicode devices err).2 = err := by
  have hloop : ∀ (ds : List (CaptureDeviceInfo Name)) (acc : List String),
      (∀ d ∈ ds, (toUnicode d.friendlyName).toBool = true) →
      (ds.foldl
        (fun (acc : List String × Option PyErr) device =>
          match toUnicode device.friendlyName with
          | .ok pyName => (acc.1 ++ [pyName], acc.2)
          | .error e => (acc.1, some e))
        (acc, err)).2 = err := by
    intro ds
    induction ds with
    | nil => intro acc _; rfl
    | cons d ds ih =>
      intro acc h
      rw [List.foldl_cons]
      have hd := h d (List.mem_cons_self d ds)
      cases hconv : toUnicode d.friendlyName with
      | ok name => exact ih _ (fun x hx => h x (List.mem_cons_of_mem d hx))
      | error e =>
        rw [hconv] at hd
        cases hd
  exact hloop devices [] hall

/-- When every conversion succeeds the call `litecam.getDeviceList()` returns the list of all
device names in enumeration order, of the length of the enumeration, with no exception. -/
theorem call_getDeviceList_of_all_converted {Name : Type}
    (toUnicode : Name → Except PyErr String) (devices : List (CaptureDeviceInfo Name))
    (hall : ∀ d ∈ devices, (toUnicode d.friendlyName).toBool = true) :
    call_getDeviceList toUnicode devices
        = (some (.list (devices.filterMap (fun d => (toUnicode d.friendlyName).toOption))),
            Option.none)
      ∧ (devices.filterMap (fun d => (toUnicode d.friendlyName).toOption)).length
        = devices.length := by
  constructor
  · have h1 := getDeviceList_returned_pointer toUnicode devices Option.none
    have h2 := getDeviceList_error_unchanged toUnicode devices Option.none hall
    unfold call_getDeviceList
    rw [show getDeviceList toUnicode devices Option.none
        = ((getDeviceList toUnicode devices Option.none).1,
            (getDeviceList toUnicode devices Option.none).2) from rfl, h1, h2]
    rfl
  · induction devices with
    | nil => rfl
    | cons d ds ih =>
      have hd := hall d (List.mem_cons_self d ds)
      have hds := ih (fun x hx => hall x (List.mem_cons_of_mem d hx))
      cases hconv : toUnicode d.friendlyName with
      | ok name => simpa [List.filterMap_cons, hconv, Except.toOption] using hds
      | error e =>
        rw [hconv] at hd
        cases hd

/-- When some conversion fails the call `litecam.getDeviceList()` raises `SystemError` and
returns no list: `getDeviceList` hands back its list with the exception of the failed
conversion still set. -/
theorem call_getDeviceList_of_failed_conversion {Name : Type}
    (toUnicode : Name → Except PyErr String) (devices : List (CaptureDeviceInfo Name))
    (hfail : ∃ d ∈ devices, (toUnicode d.friendlyName).toBool = false) :
    call_getDeviceList toUnicode devices
      = (Option.none, some ⟨.SystemError, "returned a result with an exception set"⟩) := by
  have h1 := getDeviceList_returned_pointer toUnicode devices Option.none
  have h2 := getDeviceList_error_indicator toUnicode devices Option.none hfail
  unfold call_getDeviceList
  rw [show getDeviceList toUnicode devices Option.none
      = ((getDeviceList toUnicode devices Option.none).1,
          (getDeviceList toUnicode devices Option.none).2) from rfl, h1]
  cases herr : (getDeviceList toUnicode devices Option.none).2 with
  | none => exact absurd herr h2
  | some e => rfl

/-- C7 (evaluation at the failing input). One device is reported, its name `cam` followed by
the byte `0xE9`, which is not valid UTF-8. The conversion fails and the entry is omitted, but
`getDeviceList` returns the empty list with the `UnicodeDecodeError` still set, so the call
`litecam.getDeviceList()` fails with `SystemError` because of the conversion failure. With the
valid name `cam` alone the call returns the list of that name. -/
theorem device_list_call_fails_because_of_conversion :
    getDeviceList PyUnicode_FromString [⟨[99, 97, 109, 0xE9]⟩] Option.none
      = (some (.list []), some ⟨.UnicodeDecodeError, "unexpected end of data"⟩)
    ∧ call_getDeviceList PyUnicode_FromString [⟨[99, 97, 109, 0xE9]⟩]
      = (Option.none, some ⟨.SystemError, "returned a result with an exception set"⟩)
    ∧ call_getDeviceList PyUnicode_FromString [⟨[99, 97, 109]⟩]
      = (some (.list ["cam"]), Option.none) := by
  refine ⟨by decide, by decide, by decide⟩

/-! ## Claims on module initialisation -/

/-- C8. `PyInit_litecam` performs module creation, camera type finalisation, registration of
the camera type as `PyCamera`, window type finalisation and registration of the window type as
`PyWindow` in that order, stopping after the first step that fails. It returns the module,
with both types registered, exactly when all five steps succeed. When a step fails it returns
`NULL`; the module, if it was created, is released exactly once and no longer exists, and if
it was not created nothing is released. -/
theorem init_runs_until_first_failure (api : InitApi) (w : InitWorld) :
    performedSteps (PyInit_litecam api w).2.log
        = performedSteps w.log ++ runUntilFailure api initSteps
      ∧ ((PyInit_litecam api w).1
            = some [("PyCamera", .PyCameraType), ("PyWindow", .PyWindowType)]
          ↔ ∀ s ∈ initSteps, api.succeeds s = true)
      ∧ ((PyInit_litecam api w).1 ≠ Option.none ↔ ∀ s ∈ initSteps, api.succeeds s = true)
      ∧ ((∀ s ∈ initSteps, api.succeeds s = true) →
          (PyInit_litecam api w).2.moduleRefs = 1
          ∧ (PyInit_litecam api w).2.attrs
            = [("PyCamera", .PyCameraType), ("PyWindow", .PyWindowType)]
          ∧ (PyInit_litecam api w).2.log.count .decrefModule = w.log.count .decrefModule)
      ∧ ((∃ s ∈ initSteps, api.succeeds s = false) →
          (PyInit_litecam api w).1 = Option.none
          ∧ (api.succeeds .PyModule_Create = true →
              (PyInit_litecam api w).2.moduleRefs = 0
              ∧ (PyInit_litecam api w).2.attrs = []
              ∧ (PyInit_litecam api w).2.log.count .decrefModule
                = w.log.count .decrefModule + 1)
          ∧ (api.succeeds .PyModule_Create = false →
              (PyInit_litecam api w).2.moduleRefs = w.moduleRefs
              ∧ (PyInit_litecam api w).2.attrs = w.attrs
              ∧ (PyInit_litecam api w).2.log.count .decrefModule
                = w.log.count .decrefModule)) := by
  cases h1 : api.succeeds .PyModule_Create <;>
  cases h2 : api.succeeds (.PyType_Ready .PyCameraType) <;>
  cases h3 : api.succeeds (.PyModule_AddObject "PyCamera" .PyCameraType) <;>
  cases h4 : api.succeeds (.PyType_Ready .PyWindowType) <;>
  cases h5 : api.succeeds (.PyModule_AddObject "PyWindow" .PyWindowType) <;>
  simp [PyInit_litecam, PyModule_Create, PyType_Ready, PyModule_AddObject, printf,
    Py_DECREF_type, Py_DECREF_module, performedSteps, runUntilFailure, initSteps,
    List.filterMap_append, List.count_append, h1, h2, h3, h4, h5]

end LiteCam
